import Mathlib

/-!
Shallow embedding of `bedrock-web-recaptcha`.

The repository ships several variants of two operations:

* `getRecaptchaToken` — obtain a reCAPTCHA token from the vendor global
  `window.grecaptcha`, polling for its presence with a bounded retry budget:
  - a recursive variant (`src/lib/recaptcha.js`), retry counter `i`,
    hard-coded bound 3 and 500 ms delay;
  - a typed variant (`src/unnamed/part_001`) using a helper
    `_waitForRecaptcha` whose loop runs `retry < retries` and which throws a
    `TimeoutError`-named error on exhaustion;
  - a loop variant (`src/unnamed/part_002`, first function) whose loop runs
    `retry < retries` and throws a plain `reCAPTCHA not ready` error;
  - a loop variant (`src/unnamed/part_002`, second function) whose loop runs
    `retry <= retries` and validates arguments by truthiness.
* `loadRecaptchaScript` — inject the vendor script tag with sentinel id
  `recaptcha-script` into the document head, with a fast path when the
  vendor global or the sentinel element is already present:
  - a variant taking `siteKey` and an `emitFn` callback
    (`src/lib/recaptcha.js` and `src/unnamed/part_002`);
  - a variant taking a raw `url` (`src/unnamed/part_001` and
    `src/unnamed/part_002`).

The embedding makes the event loop explicit: time is counted in completed
polling delays, the vendor global's presence is a function of that time, and
the vendor's `execute` call is an injected function of the two values the
code passes to it.  Outcomes record the settled result together with the
observable interactions (delays performed, presence checks, `execute`
invocations with their arguments), so that claims about interaction counts
and ordering are statable.
-/

/-- A JavaScript value, as far as the validation code inspects one:
`typeof x === 'string'` and truthiness are the only observations made. -/
inductive JSVal where
  | undefined : JSVal
  | str : String → JSVal
  | num : Int → JSVal
  | boolean : Bool → JSVal
deriving DecidableEq, Repr

/-- The check `typeof v === 'string'`. -/
def JSVal.isString : JSVal → Bool
  | .str _ => true
  | _ => false

/-- JavaScript truthiness for the values we model: `undefined`, `false`,
`0` and the empty string are falsy. -/
def JSVal.truthy : JSVal → Bool
  | .undefined => false
  | .str s => s ≠ ""
  | .num n => n ≠ 0
  | .boolean b => b

/-- An error value as produced by the vendor (`execute` rejections) or by
the browser (`event.error`): a `name` and a `message`. -/
structure BaseError where
  name : String
  message : String
deriving DecidableEq, Repr

/-- An error thrown by this module: a `name` (default `"Error"`, but
`_waitForRecaptcha` sets `"TimeoutError"`), a `message`, and an optional
`cause` (set by `loadRecaptchaScript`'s `onerror` wrapper). -/
structure JSError where
  name : String
  message : String
  cause : Option BaseError
deriving DecidableEq, Repr

/-- The environment a `getRecaptchaToken` call runs in: whether
`window.grecaptcha` is present after `t` completed polling delays, and the
settled result of `window.grecaptcha.execute(siteKey, {action})` for the
values the code passes.  `grecaptcha.ready` is modelled as always firing its
callback, which is the only behavior the code distinguishes. -/
structure Env where
  grecaptcha : Nat → Bool
  execute : JSVal → JSVal → Except BaseError String

/-- The observable outcome of one `getRecaptchaToken` call: the settled
result, the number of `setTimeout` delays performed, the number of
`window.grecaptcha` presence checks, and the list of `execute` invocations
with the `(siteKey, action)` values passed to each. -/
structure TokenOutcome where
  result : Except JSError String
  delays : Nat
  globalChecks : Nat
  executeCalls : List (JSVal × JSVal)
deriving Repr

/-- The options object of the loop-based `getRecaptchaToken` variants; a
`none` field is an absent (or `undefined`) property, so the destructuring
defaults `action = 'login'`, `retries = 3`, `delay = 500` apply to it. -/
structure TokenOptions where
  siteKey : Option JSVal
  action : Option JSVal
  retries : Option Int
  delay : Option Int
deriving DecidableEq, Repr

/-- The error `new TypeError('"siteKey" must be a string.')`. -/
def siteKeyTypeError : JSError :=
  ⟨"TypeError", "\"siteKey\" must be a string.", none⟩

/-- The error `new TypeError('"action" must be a string.')`. -/
def actionTypeError : JSError :=
  ⟨"TypeError", "\"action\" must be a string.", none⟩

/-- The exhaustion error of `_waitForRecaptcha` (`src/unnamed/part_001`):
message `reCAPTCHA script failed to load`, name set to `TimeoutError`. -/
def timeoutError : JSError :=
  ⟨"TimeoutError", "reCAPTCHA script failed to load", none⟩

/-- The exhaustion error of the inline loops (`src/unnamed/part_002`):
`new Error('reCAPTCHA not ready')`, a plain `Error` with no name change. -/
def notReadyError : JSError :=
  ⟨"Error", "reCAPTCHA not ready", none⟩

/-- The error `new Error('Missing required params')` of the truthiness variant. -/
def missingParamsError : JSError :=
  ⟨"Error", "Missing required params", none⟩

/-- The recursive variant's exhaustion error (`src/lib/recaptcha.js`):
`new Error('Unable to load reCAPTCHA script')`. -/
def loadScriptError : JSError :=
  ⟨"Error", "Unable to load reCAPTCHA script", none⟩

/-- The catch-block wrapper common to all variants:
``new Error(`Unable to receive token: ${error.message}`)``. -/
def execError (e : BaseError) : JSError :=
  ⟨"Error", "Unable to receive token: " ++ e.message, none⟩

/-- The shared tail of every variant once the global is present: await the
`ready` callback, call `execute(siteKey, {action})`, return the token, and
wrap any rejection via `execError`.  `d` delays and `c` checks have already
happened. -/
def execPart (env : Env) (siteKey action : JSVal) (d c : Nat) : TokenOutcome :=
  match env.execute siteKey action with
  | .ok tok => ⟨.ok tok, d, c, [(siteKey, action)]⟩
  | .error e => ⟨.error (execError e), d, c, [(siteKey, action)]⟩

/-- Outcome of `_waitForRecaptcha` (`src/unnamed/part_001`): result plus
delay and check counts. -/
structure WaitOutcome where
  result : Except JSError Unit
  delays : Nat
  globalChecks : Nat
deriving Repr

/-- Function `_waitForRecaptcha` of `src/unnamed/part_001`: for each of `fuel`
remaining iterations, check `window.grecaptcha`; if present return,
otherwise delay once and re-enter.  On exhaustion throw `timeoutError`.
`t` is the number of delays (equivalently, of checks) already performed
within this call, `0` at every top-level entry. -/
def waitForRecaptcha (env : Env) : Nat → Nat → WaitOutcome
  | 0, t => ⟨.error timeoutError, t, t⟩
  | fuel + 1, t =>
    if env.grecaptcha t then ⟨.ok (), t, t + 1⟩
    else waitForRecaptcha env fuel (t + 1)

/-- The inline polling loop of both `src/unnamed/part_002` variants: each
iteration checks `window.grecaptcha`; if absent it delays once and
continues, otherwise it runs the ready/execute tail and exits the loop
(returning the token or throwing the wrapped error).  After the last
iteration it throws `notReadyError`.  `fuel` is the number of loop
iterations still allowed and `t` the delays performed so far in this call. -/
def tokenLoop (env : Env) (siteKey action : JSVal) : Nat → Nat → TokenOutcome
  | 0, t => ⟨.error notReadyError, t, t, []⟩
  | fuel + 1, t =>
    if env.grecaptcha t then execPart env siteKey action t (t + 1)
    else tokenLoop env siteKey action fuel (t + 1)

/-- Function `getRecaptchaToken` of `src/unnamed/part_001`: destructuring defaults,
`typeof` validation of `siteKey` and `action`, then
`_waitForRecaptcha({retries, delay})`, then the ready/execute tail. -/
def getRecaptchaToken_typed (env : Env) (opts : TokenOptions) : TokenOutcome :=
  let siteKey := opts.siteKey.getD .undefined
  let action := opts.action.getD (.str "login")
  let retries := opts.retries.getD 3
  if ¬ siteKey.isString then ⟨.error siteKeyTypeError, 0, 0, []⟩
  else if ¬ action.isString then ⟨.error actionTypeError, 0, 0, []⟩
  else
    let w := waitForRecaptcha env retries.toNat 0
    match w.result with
    | .error e => ⟨.error e, w.delays, w.globalChecks, []⟩
    | .ok () => execPart env siteKey action w.delays w.globalChecks

/-- First `getRecaptchaToken` of `src/unnamed/part_002`: destructuring
defaults, `typeof` validation, then the inline loop `retry < retries`
(`retries.toNat` iterations, since a non-positive bound runs zero). -/
def getRecaptchaToken_loop (env : Env) (opts : TokenOptions) : TokenOutcome :=
  let siteKey := opts.siteKey.getD .undefined
  let action := opts.action.getD (.str "login")
  let retries := opts.retries.getD 3
  if ¬ siteKey.isString then ⟨.error siteKeyTypeError, 0, 0, []⟩
  else if ¬ action.isString then ⟨.error actionTypeError, 0, 0, []⟩
  else tokenLoop env siteKey action retries.toNat 0

/-- Second `getRecaptchaToken` of `src/unnamed/part_002`: truthiness
validation (`if(!siteKey || !action)`), then the inline loop
`retry <= retries`, i.e. `(retries + 1).toNat` iterations. -/
def getRecaptchaToken_loopLe (env : Env) (opts : TokenOptions) : TokenOutcome :=
  let siteKey := opts.siteKey.getD .undefined
  let action := opts.action.getD (.str "login")
  let retries := opts.retries.getD 3
  if ¬ siteKey.truthy ∨ ¬ action.truthy then
    ⟨.error missingParamsError, 0, 0, []⟩
  else tokenLoop env siteKey action (retries + 1).toNat 0

/-- The options object of the recursive `getRecaptchaToken` of
`src/lib/recaptcha.js`: `siteKey`, `action` and the internal retry counter
`i`; a `none` field is an absent (or `undefined`) property. -/
structure TokenOptionsRec where
  siteKey : Option JSVal
  action : Option JSVal
  i : Option Int
deriving DecidableEq, Repr

/-- Truthiness of the numeric-or-undefined retry counter `i`: `undefined`
and `0` are falsy. -/
def iTruthy : Option Int → Bool
  | none => false
  | some n => n ≠ 0

/-- The counter passed to the recursive call: `i: !i ? 1 : i + 1`. -/
def nextI : Option Int → Option Int
  | none => some 1
  | some n => if n = 0 then some 1 else some (n + 1)

/-- Termination measure for the recursive variant: each recursion moves the
counter strictly towards the `i > 3` abort. -/
def iMeasure : Option Int → Nat
  | none => 5
  | some n => (5 - n).toNat

/-- The body of the recursive `getRecaptchaToken` of `src/lib/recaptcha.js`:
if `i` is truthy, abort with `loadScriptError` when `i > 3`, otherwise delay
once; then, if `window.grecaptcha` is absent, recurse with `!i ? 1 : i + 1`,
else run the ready/execute tail.  `d` counts delays performed and `c`
presence checks performed across the recursion, both `0` at entry. -/
def getRecaptchaToken_rec (env : Env) (siteKey action : JSVal) :
    Option Int → Nat → Nat → TokenOutcome
  | none, d, c =>
    if env.grecaptcha d then execPart env siteKey action d (c + 1)
    else getRecaptchaToken_rec env siteKey action (nextI none) d (c + 1)
  | some n, d, c =>
    if h3 : 3 < n then ⟨.error loadScriptError, d, c, []⟩
    else if h0 : n = 0 then
      -- `if(i)` is false for `i === 0`: no delay before the check.
      if env.grecaptcha d then execPart env siteKey action d (c + 1)
      else getRecaptchaToken_rec env siteKey action (nextI (some n)) d (c + 1)
    else
      -- truthy counter within budget: wait 500 ms, then check.
      if env.grecaptcha (d + 1) then execPart env siteKey action (d + 1) (c + 1)
      else getRecaptchaToken_rec env siteKey action (nextI (some n)) (d + 1) (c + 1)
termination_by i _ _ => iMeasure i
decreasing_by
  all_goals simp only [iMeasure, nextI]
  · omega
  · simp only [if_pos h0]; omega
  · simp only [if_neg h0]; omega

/-- Function `getRecaptchaToken` of `src/lib/recaptcha.js`.  The whole-argument
default `= {action: 'login'}` applies only when the options object itself is
absent; when an object is passed, absent properties stay `undefined`. -/
def getRecaptchaToken_lib (env : Env) (opts : Option TokenOptionsRec) :
    TokenOutcome :=
  match opts with
  | none => getRecaptchaToken_rec env .undefined (.str "login") none 0 0
  | some o =>
    getRecaptchaToken_rec env (o.siteKey.getD .undefined)
      (o.action.getD .undefined) o.i 0 0

/-- A script element as far as this module observes one: its `id`, `src`,
and the `async`/`defer` flags it sets. -/
structure ScriptElem where
  id : String
  src : String
  async : Bool
  deferred : Bool
deriving DecidableEq, Repr

/-- The browser state `loadRecaptchaScript` reads and writes: presence of
`window.grecaptcha` and the script elements of the document (head). -/
structure DomState where
  grecaptcha : Bool
  head : List ScriptElem
deriving DecidableEq, Repr

/-- The check `document.getElementById('recaptcha-script') !== null`. -/
def hasSentinel (dom : DomState) : Bool :=
  dom.head.any (fun e => e.id == "recaptcha-script")

/-- Number of elements carrying the sentinel id. -/
def sentinelCount (dom : DomState) : Nat :=
  (dom.head.filter (fun e => e.id == "recaptcha-script")).length

/-- The event the browser eventually fires on the injected element: `load`,
or `error` carrying the event's `error` property when it is an `Error`
instance (`none` models both a missing event and a non-`Error` value). -/
inductive LoadEvent where
  | load : LoadEvent
  | error : Option BaseError → LoadEvent
deriving DecidableEq, Repr

/-- An observable action of a `loadRecaptchaScript` call, in order:
an `emitFn(eventName, error)` invocation, the promise resolving, or the
promise rejecting. -/
inductive LoadAction where
  | emit : String → BaseError → LoadAction
  | resolve : LoadAction
  | reject : JSError → LoadAction
deriving DecidableEq, Repr

/-- The outcome of one `loadRecaptchaScript` call: the document state after
the call settles, whether a new element was injected, and the ordered
observable actions. -/
structure LoadOutcome where
  dom : DomState
  injected : Bool
  actions : List LoadAction
deriving DecidableEq, Repr

/-- The fallback original `new Error('Unknown error loading reCAPTCHA')`. -/
def unknownLoadError : BaseError :=
  ⟨"Error", "Unknown error loading reCAPTCHA"⟩

/-- The wrapper `new Error('Failed to load reCAPTCHA script')` with `cause` set. -/
def failedLoadError (original : BaseError) : JSError :=
  ⟨"Error", "Failed to load reCAPTCHA script", some original⟩

/-- The script URL template of the `siteKey` variant. -/
def recaptchaUrl (siteKey : String) : String :=
  "https://www.google.com/recaptcha/api.js?render=" ++ siteKey

/-- Function `loadRecaptchaScript({siteKey, emitFn})` of `src/lib/recaptcha.js` (and
`src/unnamed/part_002`): fast path when the global or the sentinel element
exists; otherwise inject the tag and settle on `event`.  On `error`, pull
`event.error` when it is an `Error` (else the unknown-error fallback), emit
the raw original via `emitFn`, then reject with the wrapped error. -/
def loadRecaptchaScript_lib (dom : DomState) (siteKey : String)
    (event : LoadEvent) : LoadOutcome :=
  if dom.grecaptcha || hasSentinel dom then ⟨dom, false, [.resolve]⟩
  else
    let script : ScriptElem := ⟨"recaptcha-script", recaptchaUrl siteKey, true, true⟩
    let dom' : DomState := ⟨dom.grecaptcha, dom.head ++ [script]⟩
    match event with
    | .load => ⟨dom', true, [.resolve]⟩
    | .error e =>
      let original := e.getD unknownLoadError
      ⟨dom', true, [.emit "error" original, .reject (failedLoadError original)]⟩

/-- Function `loadRecaptchaScript({url})` of `src/unnamed/part_001` (and
`src/unnamed/part_002`): same fast path and injection, `src` taken verbatim
from `url`, and no `emitFn` — on `error` it only rejects with the wrapped
error. -/
def loadRecaptchaScript_url (dom : DomState) (url : String)
    (event : LoadEvent) : LoadOutcome :=
  if dom.grecaptcha || hasSentinel dom then ⟨dom, false, [.resolve]⟩
  else
    let script : ScriptElem := ⟨"recaptcha-script", url, true, true⟩
    let dom' : DomState := ⟨dom.grecaptcha, dom.head ++ [script]⟩
    match event with
    | .load => ⟨dom', true, [.resolve]⟩
    | .error e =>
      ⟨dom', true, [.reject (failedLoadError (e.getD unknownLoadError))]⟩

/-- One call in a sequence of loader invocations: which variant was called,
with which argument, and which event the browser fired for it. -/
inductive LoadCall where
  | lib : String → LoadEvent → LoadCall
  | url : String → LoadEvent → LoadCall
deriving DecidableEq, Repr

/-- The document state a single loader call leaves behind. -/
def applyLoad (dom : DomState) : LoadCall → DomState
  | .lib k ev => (loadRecaptchaScript_lib dom k ev).dom
  | .url u ev => (loadRecaptchaScript_url dom u ev).dom

/-- The document state after a sequence of loader calls. -/
def runLoads (dom : DomState) : List LoadCall → DomState
  | [] => dom
  | c :: rest => runLoads (applyLoad dom c) rest

/-- The settled result of a loader call: the first resolve or reject among
its actions. -/
def settleOf : List LoadAction → Option (Except JSError Unit)
  | [] => none
  | .resolve :: _ => some (.ok ())
  | .reject e :: _ => some (.error e)
  | .emit _ _ :: rest => settleOf rest

/-- Test-double environment: the vendor global is present from the start
and `execute` resolves with `"TOK"` (the repository's own test double). -/
def envReady : Env := ⟨fun _ => true, fun _ _ => .ok "TOK"⟩

/-- Test-double environment: the vendor global never appears. -/
def envNever : Env := ⟨fun _ => false, fun _ _ => .ok "TOK"⟩

/-- Test-double environment: the global is present but `execute` rejects
with message `boom` (the spec's execute-failure scenario). -/
def envBoom : Env := ⟨fun _ => true, fun _ _ => .error ⟨"Error", "boom"⟩⟩

/-- Test-double environment: the vendor global first appears once `appear`
polling delays have completed. -/
def envLate (appear : Nat) : Env :=
  ⟨fun t => decide (appear ≤ t), fun _ _ => .ok "TOK"⟩

/-- If the global is absent at every check the wait will perform,
`_waitForRecaptcha` throws the timeout error after exactly `fuel` further
delays (and as many checks). -/
theorem waitForRecaptcha_miss (env : Env) (fuel : Nat) :
    ∀ t, (∀ k, k < t + fuel → env.grecaptcha k = false) →
      waitForRecaptcha env fuel t = ⟨.error timeoutError, t + fuel, t + fuel⟩ := by
  induction fuel with
  | zero => intro t _; simp [waitForRecaptcha]
  | succ n ih =>
    intro t h
    have ht : env.grecaptcha t = false := h t (by omega)
    have hrec := ih (t + 1) (fun k hk => h k (by omega))
    have e : t + 1 + n = t + (n + 1) := by omega
    rw [e] at hrec
    simp [waitForRecaptcha, ht, hrec]

/-- If the global is absent at every check the loop will perform, the inline
loop throws the not-ready error after exactly `fuel` further delays, without
ever invoking `execute`. -/
theorem tokenLoop_miss (env : Env) (siteKey action : JSVal) (fuel : Nat) :
    ∀ t, (∀ k, k < t + fuel → env.grecaptcha k = false) →
      tokenLoop env siteKey action fuel t
        = ⟨.error notReadyError, t + fuel, t + fuel, []⟩ := by
  induction fuel with
  | zero => intro t _; simp [tokenLoop]
  | succ n ih =>
    intro t h
    have ht : env.grecaptcha t = false := h t (by omega)
    have hrec := ih (t + 1) (fun k hk => h k (by omega))
    have e : t + 1 + n = t + (n + 1) := by omega
    rw [e] at hrec
    simp [tokenLoop, ht, hrec]

/-- The inline loop invokes `execute` at most once per call. -/
theorem tokenLoop_execOnce (env : Env) (siteKey action : JSVal) :
    ∀ fuel t, ((tokenLoop env siteKey action fuel t).executeCalls).length ≤ 1 := by
  intro fuel
  induction fuel with
  | zero => intro t; simp [tokenLoop]
  | succ n ih =>
    intro t
    by_cases h : env.grecaptcha t
    · simp only [tokenLoop, h, if_true, execPart]
      cases env.execute siteKey action <;> simp
    · simp only [tokenLoop, h, Bool.false_eq_true, if_false]
      exact ih (t + 1)

/-- The recursive variant invokes `execute` at most once per call: only the
readiness poll recurses, and the ready/execute tail is a leaf. -/
theorem getRecaptchaToken_rec_execOnce (env : Env) (siteKey action : JSVal) :
    ∀ i d c,
      ((getRecaptchaToken_rec env siteKey action i d c).executeCalls).length ≤ 1 := by
  intro i d c
  induction i, d, c using getRecaptchaToken_rec.induct env siteKey action with
  | _ =>
    simp only [getRecaptchaToken_rec]
    simp_all only [execPart, dite_eq_ite, if_true, if_false]
    first
    | assumption
    | (cases env.execute siteKey action <;> simp)

/-- A document with no sentinel element has sentinel count zero. -/
theorem sentinelCount_eq_zero (dom : DomState) (h : hasSentinel dom = false) :
    sentinelCount dom = 0 := by
  unfold sentinelCount
  rw [List.length_eq_zero, List.filter_eq_nil_iff]
  intro a ha hp
  have : dom.head.any (fun e => e.id == "recaptcha-script") = true :=
    List.any_eq_true.mpr ⟨a, ha, hp⟩
  rw [hasSentinel] at h
  rw [h] at this
  exact Bool.false_ne_true this

/-- Appending the injected tag to a sentinel-free document yields sentinel
count one. -/
theorem sentinelCount_after_inject (dom : DomState) (src0 : String)
    (h : hasSentinel dom = false) :
    sentinelCount
      ⟨dom.grecaptcha, dom.head ++ [⟨"recaptcha-script", src0, true, true⟩]⟩ = 1 := by
  have h0 : sentinelCount dom = 0 := sentinelCount_eq_zero dom h
  unfold sentinelCount at h0 ⊢
  simp only [List.filter_append, List.length_append]
  rw [h0]
  simp [List.filter]

/-- A single loader call (either variant) preserves the at-most-one-sentinel
invariant. -/
theorem sentinelCount_applyLoad (dom : DomState) (c : LoadCall)
    (h : sentinelCount dom ≤ 1) : sentinelCount (applyLoad dom c) ≤ 1 := by
  have step : ∀ (src0 : String),
      (dom.grecaptcha || hasSentinel dom) = false →
      sentinelCount
        ⟨dom.grecaptcha, dom.head ++ [⟨"recaptcha-script", src0, true, true⟩]⟩ ≤ 1 := by
    intro src0 hc
    have hs : hasSentinel dom = false := (Bool.or_eq_false_iff.mp hc).2
    rw [sentinelCount_after_inject dom src0 hs]
  cases c with
  | lib k ev =>
    unfold applyLoad loadRecaptchaScript_lib
    by_cases hc : (dom.grecaptcha || hasSentinel dom) = true
    · simpa [hc] using h
    · have hc' := Bool.not_eq_true _ |>.mp hc
      cases ev <;> simpa [hc'] using step (recaptchaUrl k) hc'
  | url u ev =>
    unfold applyLoad loadRecaptchaScript_url
    by_cases hc : (dom.grecaptcha || hasSentinel dom) = true
    · simpa [hc] using h
    · have hc' := Bool.not_eq_true _ |>.mp hc
      cases ev <;> simpa [hc'] using step u hc'

/-- Every sequence of loader calls preserves the at-most-one-sentinel
invariant. -/
theorem sentinelCount_runLoads (calls : List LoadCall) :
    ∀ dom, sentinelCount dom ≤ 1 → sentinelCount (runLoads dom calls) ≤ 1 := by
  induction calls with
  | nil => intro dom h; exact h
  | cons c rest ih =>
    intro dom h
    exact ih _ (sentinelCount_applyLoad dom c h)

/-- Claim C1: for every valid siteKey/action pair, if the vendor global is
present when `getRecaptchaToken` checks for it and both its ready callback
and its `execute` call complete successfully, then `getRecaptchaToken`
resolves with exactly the string the `execute` call produced — in both the
recursive variant of `src/lib/recaptcha.js` and the `_waitForRecaptcha`
variant of `src/unnamed/part_001`. -/
theorem getToken_resolves_with_execute_value
    (env : Env) (sk a tok : String)
    (hg : env.grecaptcha 0 = true)
    (he : env.execute (.str sk) (.str a) = .ok tok) :
    (getRecaptchaToken_lib env (some ⟨some (.str sk), some (.str a), none⟩)).result
      = .ok tok ∧
    (getRecaptchaToken_typed env ⟨some (.str sk), some (.str a), none, none⟩).result
      = .ok tok := by
  constructor
  · simp [getRecaptchaToken_lib, getRecaptchaToken_rec, hg, execPart, he]
  · simp [getRecaptchaToken_typed, waitForRecaptcha, hg, execPart, he,
      JSVal.isString]

/-- Claim C1 witness: with the repository test double (global present,
execute resolving with `TOK`), both variants resolve with `TOK`. -/
theorem getToken_resolves_with_execute_value_witness :
    (getRecaptchaToken_lib envReady
        (some ⟨some (.str "K"), some (.str "A"), none⟩)).result = .ok "TOK" ∧
    (getRecaptchaToken_typed envReady
        ⟨some (.str "K"), some (.str "A"), none, none⟩).result = .ok "TOK" :=
  getToken_resolves_with_execute_value envReady "K" "A" "TOK" rfl rfl

/-- Claim C8: in the loop-based variants whose readiness loop runs
`retry < retries`, a non-positive `retries` makes the loop body never
execute, so the call rejects with the exhaustion error after zero delays and
zero presence checks — even when the vendor global is present. -/
theorem nonpositive_retries_reject
    (env : Env) (sk a : String) (r : Int) (hr : r ≤ 0) :
    getRecaptchaToken_typed env ⟨some (.str sk), some (.str a), some r, none⟩
      = ⟨.error timeoutError, 0, 0, []⟩ ∧
    getRecaptchaToken_loop env ⟨some (.str sk), some (.str a), some r, none⟩
      = ⟨.error notReadyError, 0, 0, []⟩ := by
  have h0 : r.toNat = 0 := by omega
  constructor
  · simp [getRecaptchaToken_typed, h0, waitForRecaptcha, JSVal.isString]
  · simp [getRecaptchaToken_loop, h0, tokenLoop, JSVal.isString]

/-- Claim C8 witness: with `retries = 0` and the vendor global present from
the start, both `retry < retries` variants still reject with their
exhaustion errors, never having checked the global. -/
theorem nonpositive_retries_reject_witness :
    getRecaptchaToken_typed envReady
        ⟨some (.str "K"), some (.str "A"), some 0, none⟩
      = ⟨.error timeoutError, 0, 0, []⟩ ∧
    getRecaptchaToken_loop envReady
        ⟨some (.str "K"), some (.str "A"), some 0, none⟩
      = ⟨.error notReadyError, 0, 0, []⟩ :=
  nonpositive_retries_reject envReady "K" "A" 0 (by decide)

/-- Claim C7: in `src/lib/recaptcha.js` the whole-argument default
`= {action: 'login'}` applies only when the options object is omitted
entirely, so `getRecaptchaToken({siteKey: 'K'})` passes `action = undefined`
to `execute` instead of `'login'` — contradicting both the claim and the
function's own JSDoc default.  The `src/unnamed/part_001` variant, whose
destructuring defaults are per property, does pass `'login'`; its `retries`
and `delay` defaults are `3` and `500`, witnessed here by the three delays
performed when the global never appears under the default budget. -/
theorem action_default_divergence :
    (getRecaptchaToken_lib envReady
        (some ⟨some (.str "K"), none, none⟩)).executeCalls
      = [(.str "K", .undefined)] ∧
    (getRecaptchaToken_lib envReady none).executeCalls
      = [(.undefined, .str "login")] ∧
    (getRecaptchaToken_typed envReady
        ⟨some (.str "K"), none, none, none⟩).executeCalls
      = [(.str "K", .str "login")] ∧
    (getRecaptchaToken_typed envNever
        ⟨some (.str "K"), none, none, none⟩).delays = 3 := by
  refine ⟨?_, ?_, ?_, ?_⟩
  · simp [getRecaptchaToken_lib, getRecaptchaToken_rec, envReady, execPart]
  · simp [getRecaptchaToken_lib, getRecaptchaToken_rec, envReady, execPart]
  · simp [getRecaptchaToken_typed, waitForRecaptcha, envReady, execPart,
      JSVal.isString]
  · simp [getRecaptchaToken_typed, waitForRecaptcha, envNever, JSVal.isString]

/-- Claim C9: the loop-based polling checks the global before each delay but
never after the final delay: if the global is absent at every check
(`k < retries`) yet present once the final delay completes (`k = retries`),
both `retry < retries` variants still reject with their exhaustion errors,
after `retries` delays and exactly `retries` checks. -/
theorem global_not_rechecked_after_final_delay
    (env : Env) (sk a : String) (r : Nat)
    (hmiss : ∀ k, k < r → env.grecaptcha k = false)
    (_hafter : env.grecaptcha r = true) :
    getRecaptchaToken_typed env ⟨some (.str sk), some (.str a), some (r : Int), none⟩
      = ⟨.error timeoutError, r, r, []⟩ ∧
    getRecaptchaToken_loop env ⟨some (.str sk), some (.str a), some (r : Int), none⟩
      = ⟨.error notReadyError, r, r, []⟩ := by
  have hw := waitForRecaptcha_miss env r 0 (fun k hk => hmiss k (by omega))
  have hl := tokenLoop_miss env (.str sk) (.str a) r 0 (fun k hk => hmiss k (by omega))
  simp only [Nat.zero_add] at hw hl
  constructor
  · simp [getRecaptchaToken_typed, Int.toNat_ofNat, hw, JSVal.isString]
  · simp [getRecaptchaToken_loop, Int.toNat_ofNat, hl, JSVal.isString]

/-- Claim C9 witness: the global appears exactly after the third delay and
the default-sized budget of three checks has already been spent, so the call
rejects although the global is present when it settles. -/
theorem global_not_rechecked_after_final_delay_witness :
    (∀ k, k < 3 → (envLate 3).grecaptcha k = false) ∧
    (envLate 3).grecaptcha 3 = true ∧
    getRecaptchaToken_typed (envLate 3)
        ⟨some (.str "K"), some (.str "A"), some (3 : Int), none⟩
      = ⟨.error timeoutError, 3, 3, []⟩ ∧
    getRecaptchaToken_loop (envLate 3)
        ⟨some (.str "K"), some (.str "A"), some (3 : Int), none⟩
      = ⟨.error notReadyError, 3, 3, []⟩ := by
  have h := global_not_rechecked_after_final_delay (envLate 3) "K" "A" 3
    (by intro k hk; simp [envLate]; omega) (by simp [envLate])
  exact ⟨by intro k hk; simp [envLate]; omega, by simp [envLate], h.1, h.2⟩

/-- Claim C2 counterexample: in the `retry <= retries` variant of
`src/unnamed/part_002`, with the default budget `retries = 3` and a global
that never appears, the call performs four polling delays — not three — and
its exhaustion error is a plain `Error` named `"Error"`, carrying no
classification beyond its message. -/
theorem retries_delays_counterexample :
    (getRecaptchaToken_loopLe envNever
        ⟨some (.str "K"), some (.str "A"), none, none⟩).delays = 4 ∧
    (getRecaptchaToken_loopLe envNever
        ⟨some (.str "K"), some (.str "A"), none, none⟩).result
      = .error notReadyError ∧
    notReadyError.name = "Error" := by
  refine ⟨?_, ?_, rfl⟩ <;>
    simp [getRecaptchaToken_loopLe, tokenLoop, envNever, JSVal.truthy]

/-- Claim C2, amended: if the vendor global never appears, the
`_waitForRecaptcha` variant rejects after exactly `retries` polling delays
with an error explicitly classified by `name = "TimeoutError"`, while the
`retry <= retries` variant rejects after `retries + 1` delays with a plain
`Error` distinguishable only by its `reCAPTCHA not ready` message; both
settle after finitely many delays (no hang). -/
theorem getToken_timeout_after_budget
    (env : Env) (sk a : String) (r : Int)
    (hr : 0 ≤ r) (hsk : sk ≠ "") (ha : a ≠ "")
    (hnever : ∀ k, env.grecaptcha k = false) :
    getRecaptchaToken_typed env ⟨some (.str sk), some (.str a), some r, none⟩
      = ⟨.error timeoutError, r.toNat, r.toNat, []⟩ ∧
    timeoutError.name = "TimeoutError" ∧
    getRecaptchaToken_loopLe env ⟨some (.str sk), some (.str a), some r, none⟩
      = ⟨.error notReadyError, r.toNat + 1, r.toNat + 1, []⟩ ∧
    notReadyError = ⟨"Error", "reCAPTCHA not ready", none⟩ := by
  have hw := waitForRecaptcha_miss env r.toNat 0 (fun k _ => hnever k)
  have hl := tokenLoop_miss env (.str sk) (.str a) (r + 1).toNat 0
    (fun k _ => hnever k)
  have he : (r + 1).toNat = r.toNat + 1 := by omega
  simp only [Nat.zero_add] at hw hl
  rw [he] at hl
  refine ⟨?_, rfl, ?_, rfl⟩
  · simp [getRecaptchaToken_typed, hw, JSVal.isString]
  · simp [getRecaptchaToken_loopLe, he, hl, JSVal.truthy, hsk, ha]

/-- Claim C2 amended witness: under the default-equivalent budget
`retries = 3` and a never-appearing global, the `_waitForRecaptcha` variant
performs three delays and the `retry <= retries` variant four. -/
theorem getToken_timeout_after_budget_witness :
    getRecaptchaToken_typed envNever
        ⟨some (.str "K"), some (.str "A"), some 3, none⟩
      = ⟨.error timeoutError, 3, 3, []⟩ ∧
    getRecaptchaToken_loopLe envNever
        ⟨some (.str "K"), some (.str "A"), some 3, none⟩
      = ⟨.error notReadyError, 4, 4, []⟩ := by
  have h := getToken_timeout_after_budget envNever "K" "A" 3
    (by decide) (by decide) (by decide) (fun k => rfl)
  exact ⟨h.1, h.2.2.1⟩

/-- Claim C3 counterexample: the empty string is not a non-empty string, yet
the `typeof`-validating variant of `src/unnamed/part_001` accepts
`siteKey = ''`: instead of failing fast it checks the vendor global and
resolves with a token. -/
theorem empty_siteKey_counterexample :
    (getRecaptchaToken_typed envReady
        ⟨some (.str ""), some (.str "A"), none, none⟩).result = .ok "TOK" ∧
    (getRecaptchaToken_typed envReady
        ⟨some (.str ""), some (.str "A"), none, none⟩).globalChecks = 1 := by
  constructor <;>
    simp [getRecaptchaToken_typed, waitForRecaptcha, envReady, execPart,
      JSVal.isString]

/-- Claim C3, amended: the `typeof`-validating variant fails fast exactly
when `siteKey` (or, `siteKey` being a string, `action`) is not a string —
the empty string is accepted — with a `TypeError` and zero delays, zero
global checks and no `execute` call; the truthiness-validating variant fails
fast in the same no-interaction way exactly when `siteKey` or `action` is
falsy, with the `Missing required params` error. -/
theorem invalid_args_fail_fast (env : Env) (opts : TokenOptions) :
    (¬ (opts.siteKey.getD .undefined).isString →
       getRecaptchaToken_typed env opts = ⟨.error siteKeyTypeError, 0, 0, []⟩) ∧
    ((opts.siteKey.getD .undefined).isString →
     ¬ (opts.action.getD (.str "login")).isString →
       getRecaptchaToken_typed env opts = ⟨.error actionTypeError, 0, 0, []⟩) ∧
    (¬ (opts.siteKey.getD .undefined).truthy ∨
     ¬ (opts.action.getD (.str "login")).truthy →
       getRecaptchaToken_loopLe env opts
         = ⟨.error missingParamsError, 0, 0, []⟩) := by
  refine ⟨?_, ?_, ?_⟩
  · intro h
    simp [getRecaptchaToken_typed, h]
  · intro hs h
    simp [getRecaptchaToken_typed, hs, h]
  · intro h
    simp only [getRecaptchaToken_loopLe]
    rw [if_pos h]

/-- Claim C3 amended witness: an `undefined` siteKey is rejected by the
`typeof` variant with the `TypeError`, and by the truthiness variant with
the missing-params error, in both cases with no delay, no global check and
no `execute` call. -/
theorem invalid_args_fail_fast_witness :
    getRecaptchaToken_typed envReady ⟨none, some (.str "A"), none, none⟩
      = ⟨.error siteKeyTypeError, 0, 0, []⟩ ∧
    getRecaptchaToken_loopLe envReady ⟨none, some (.str "A"), none, none⟩
      = ⟨.error missingParamsError, 0, 0, []⟩ :=
  ⟨(invalid_args_fail_fast envReady ⟨none, some (.str "A"), none, none⟩).1
      (by decide),
   (invalid_args_fail_fast envReady ⟨none, some (.str "A"), none, none⟩).2.2
      (Or.inl (by decide))⟩

/-- Claim C4: `loadRecaptchaScript` is idempotent — when the vendor global
is already present or a sentinel element already exists, both variants
return the document unchanged, inject nothing and resolve immediately; and
across every sequence of loader calls the number of sentinel elements never
exceeds one. -/
theorem loadScript_idempotent :
    (∀ (dom : DomState) (k : String) (ev : LoadEvent),
       (dom.grecaptcha || hasSentinel dom) = true →
       loadRecaptchaScript_lib dom k ev = ⟨dom, false, [.resolve]⟩ ∧
       loadRecaptchaScript_url dom k ev = ⟨dom, false, [.resolve]⟩) ∧
    (∀ (dom : DomState) (calls : List LoadCall),
       sentinelCount dom ≤ 1 → sentinelCount (runLoads dom calls) ≤ 1) := by
  constructor
  · intro dom k ev h
    constructor <;> simp [loadRecaptchaScript_lib, loadRecaptchaScript_url, h]
  · intro dom calls h
    exact sentinelCount_runLoads calls dom h

/-- Claim C4 witness: with the global present the loader leaves the empty
document untouched, and two successive calls on a clean document leave at
most one sentinel element. -/
theorem loadScript_idempotent_witness :
    loadRecaptchaScript_lib ⟨true, []⟩ "K" .load
      = ⟨⟨true, []⟩, false, [.resolve]⟩ ∧
    sentinelCount (runLoads ⟨false, []⟩ [.lib "K" .load, .lib "K" .load]) ≤ 1 :=
  ⟨(loadScript_idempotent.1 ⟨true, []⟩ "K" .load (by decide)).1,
   loadScript_idempotent.2 ⟨false, []⟩ [.lib "K" .load, .lib "K" .load]
     (by decide)⟩

/-- Claim C5: when the vendor's `execute` call rejects with message `m`,
`getRecaptchaToken` rejects with a new error whose message is
`Unable to receive token: ` followed by `m` (recursive variant of
`src/lib/recaptcha.js` and loop variant of `src/unnamed/part_002`), and
`execute` is never invoked more than once per call — only the readiness
poll repeats. -/
theorem execute_failure_wrapped
    (env : Env) (sk a : String) (e : BaseError)
    (hg : env.grecaptcha 0 = true)
    (he : env.execute (.str sk) (.str a) = .error e) :
    (getRecaptchaToken_lib env
        (some ⟨some (.str sk), some (.str a), none⟩)).result
      = .error ⟨"Error", "Unable to receive token: " ++ e.message, none⟩ ∧
    (getRecaptchaToken_loop env
        ⟨some (.str sk), some (.str a), none, none⟩).result
      = .error ⟨"Error", "Unable to receive token: " ++ e.message, none⟩ ∧
    (∀ (env2 : Env) (opts2 : Option TokenOptionsRec),
       ((getRecaptchaToken_lib env2 opts2).executeCalls).length ≤ 1) ∧
    (∀ (env2 : Env) (opts2 : TokenOptions),
       ((getRecaptchaToken_loop env2 opts2).executeCalls).length ≤ 1) := by
  refine ⟨?_, ?_, ?_, ?_⟩
  · simp [getRecaptchaToken_lib, getRecaptchaToken_rec, hg, execPart, he,
      execError]
  · simp [getRecaptchaToken_loop, tokenLoop, hg, execPart, he, execError,
      JSVal.isString]
  · intro env2 opts2
    cases opts2 with
    | none => exact getRecaptchaToken_rec_execOnce env2 _ _ none 0 0
    | some o => exact getRecaptchaToken_rec_execOnce env2 _ _ o.i 0 0
  · intro env2 opts2
    unfold getRecaptchaToken_loop
    by_cases h1 : ¬ (opts2.siteKey.getD .undefined).isString
    · simp [h1]
    · by_cases h2 : ¬ (opts2.action.getD (.str "login")).isString
      · simp [h1, h2]
      · simp only [h1, h2, if_false]
        exact tokenLoop_execOnce env2 _ _ _ 0

/-- Claim C5 witness: the spec's scenario — `execute` rejects with message
`boom` — makes both variants reject with message
`Unable to receive token: boom`. -/
theorem execute_failure_wrapped_witness :
    (getRecaptchaToken_lib envBoom
        (some ⟨some (.str "K"), some (.str "A"), none⟩)).result
      = .error ⟨"Error", "Unable to receive token: boom", none⟩ ∧
    (getRecaptchaToken_loop envBoom
        ⟨some (.str "K"), some (.str "A"), none, none⟩).result
      = .error ⟨"Error", "Unable to receive token: boom", none⟩ := by
  have h := execute_failure_wrapped envBoom "K" "A" ⟨"Error", "boom"⟩ rfl rfl
  exact ⟨h.1, h.2.1⟩

/-- Claim C6: when the browser fires the error event, both loader variants
reject with a wrapped `Failed to load reCAPTCHA script` error whose cause is
the event's original `Error` when one is available and the generic
`Unknown error loading reCAPTCHA` placeholder otherwise; the `emitFn`
variant emits the raw unwrapped original via the callback before the
rejection. -/
theorem onerror_wraps_and_emits
    (dom : DomState) (k : String) (e : Option BaseError)
    (h : (dom.grecaptcha || hasSentinel dom) = false) :
    (loadRecaptchaScript_lib dom k (.error e)).actions
      = [.emit "error" (e.getD unknownLoadError),
         .reject ⟨"Error", "Failed to load reCAPTCHA script",
           some (e.getD unknownLoadError)⟩] ∧
    (loadRecaptchaScript_url dom k (.error e)).actions
      = [.reject ⟨"Error", "Failed to load reCAPTCHA script",
           some (e.getD unknownLoadError)⟩] ∧
    settleOf (loadRecaptchaScript_lib dom k (.error e)).actions
      = some (.error (failedLoadError (e.getD unknownLoadError))) ∧
    unknownLoadError.message = "Unknown error loading reCAPTCHA" := by
  refine ⟨?_, ?_, ?_, rfl⟩ <;>
    simp [loadRecaptchaScript_lib, loadRecaptchaScript_url, h, settleOf,
      failedLoadError]

/-- Claim C6 witness: on a clean document, an error event carrying an
original `Error` leads the `emitFn` variant to emit that raw error and then
reject with it as cause, and an event without one leads the `url` variant to
reject with the unknown-error placeholder as cause. -/
theorem onerror_wraps_and_emits_witness :
    (loadRecaptchaScript_lib ⟨false, []⟩ "K"
        (.error (some ⟨"Error", "network down"⟩))).actions
      = [.emit "error" ⟨"Error", "network down"⟩,
         .reject ⟨"Error", "Failed to load reCAPTCHA script",
           some ⟨"Error", "network down"⟩⟩] ∧
    (loadRecaptchaScript_url ⟨false, []⟩ "U" (.error none)).actions
      = [.reject ⟨"Error", "Failed to load reCAPTCHA script",
           some unknownLoadError⟩] :=
  ⟨(onerror_wraps_and_emits ⟨false, []⟩ "K"
      (some ⟨"Error", "network down"⟩) (by decide)).1,
   (onerror_wraps_and_emits ⟨false, []⟩ "U" none (by decide)).2.1⟩

/-- Claim C10: after a loader call rejects because the error event fired,
the injected sentinel element remains in the document, so every subsequent
call of either variant takes the fast path: it resolves immediately, leaves
the document unchanged and injects nothing — a failed script load is never
retried by this module. -/
theorem failed_load_not_retried
    (dom : DomState) (k u : String) (e : Option BaseError)
    (h : (dom.grecaptcha || hasSentinel dom) = false) :
    settleOf (loadRecaptchaScript_lib dom k (.error e)).actions
      = some (.error (failedLoadError (e.getD unknownLoadError))) ∧
    (loadRecaptchaScript_lib dom k (.error e)).injected = true ∧
    hasSentinel (loadRecaptchaScript_lib dom k (.error e)).dom = true ∧
    (∀ (k2 : String) (ev2 : LoadEvent),
       loadRecaptchaScript_lib (loadRecaptchaScript_lib dom k (.error e)).dom k2 ev2
         = ⟨(loadRecaptchaScript_lib dom k (.error e)).dom, false, [.resolve]⟩) ∧
    (∀ (ev2 : LoadEvent),
       loadRecaptchaScript_url (loadRecaptchaScript_lib dom k (.error e)).dom u ev2
         = ⟨(loadRecaptchaScript_lib dom k (.error e)).dom, false, [.resolve]⟩) := by
  have hg : dom.grecaptcha = false := (Bool.or_eq_false_iff.mp h).1
  have hL : loadRecaptchaScript_lib dom k (.error e)
      = ⟨⟨dom.grecaptcha,
          dom.head ++ [⟨"recaptcha-script", recaptchaUrl k, true, true⟩]⟩,
         true,
         [.emit "error" (e.getD unknownLoadError),
          .reject (failedLoadError (e.getD unknownLoadError))]⟩ := by
    simp [loadRecaptchaScript_lib, h, failedLoadError]
  have hsent : hasSentinel
      ⟨dom.grecaptcha,
       dom.head ++ [⟨"recaptcha-script", recaptchaUrl k, true, true⟩]⟩ = true := by
    simp [hasSentinel, List.any_append]
  refine ⟨?_, ?_, ?_, ?_, ?_⟩
  · rw [hL]; simp [settleOf]
  · rw [hL]
  · rw [hL]; exact hsent
  · intro k2 ev2; rw [hL]; simp [loadRecaptchaScript_lib, hsent]
  · intro ev2; rw [hL]; simp [loadRecaptchaScript_url, hsent]

/-- Claim C10 witness: on a clean document a failed load leaves the sentinel
behind, and an immediate retry resolves on the fast path without touching
the document. -/
theorem failed_load_not_retried_witness :
    settleOf (loadRecaptchaScript_lib ⟨false, []⟩ "K" (.error none)).actions
      = some (.error (failedLoadError unknownLoadError)) ∧
    loadRecaptchaScript_lib
        (loadRecaptchaScript_lib ⟨false, []⟩ "K" (.error none)).dom "K" .load
      = ⟨(loadRecaptchaScript_lib ⟨false, []⟩ "K" (.error none)).dom,
         false, [.resolve]⟩ :=
  ⟨(failed_load_not_retried ⟨false, []⟩ "K" "U" none (by decide)).1,
   (failed_load_not_retried ⟨false, []⟩ "K" "U" none (by decide)).2.2.2.1 "K" .load⟩
